import Mathlib

/-!
Verification development for the AliceVision large-scale meshing orchestrator
and the camera-rig data structure.

The development shallowly embeds two source units:

* `Rig.hpp`: the `RigSubPose` / `Rig` data structures and their accessors.
* the meshing application `main`: command-line parsing (boost program
  options semantics at the granularity the program uses), the
  `partitioning` dispatch `switch`, the auto-mode reconstruction-plan
  caching, and the single-block resolution-search loop.

External collaborators (file system, `getNTracks`, the Delaunay graph-cut
reconstructor) are modelled as an oracle `World`; the program is embedded
as a function from arguments and oracle to a trace of effect events plus a
final result.  The single-block `while` loop is embedded with explicit
fuel, so that non-termination of the source loop is representable as the
loop returning `none` for every fuel value.
-/

namespace AliceVision

/-! ### Rig.hpp -/

/-- Status of a rig sub-pose, from `enum class ERigSubPoseStatus`. -/
inductive ERigSubPoseStatus : Type
  | UNINITIALIZED
  | ESTIMATED
  | CONSTANT
deriving DecidableEq, Repr

/-- Model of `geometry::Pose3`: a rotation and a center, default
constructed as identity rotation and zero center. -/
structure Pose3 where
  rotation : Fin 3 → Fin 3 → ℚ := fun i j => if i = j then 1 else 0
  center : Fin 3 → ℚ := fun _ => 0

instance : DecidableEq Pose3 := fun a b =>
  decidable_of_iff (a.rotation = b.rotation ∧ a.center = b.center)
    (by cases a; cases b; simp)

/-- Model of `struct RigSubPose`: a status (default `UNINITIALIZED`) and a
relative pose (default constructed). -/
structure RigSubPose where
  status : ERigSubPoseStatus := .UNINITIALIZED
  pose : Pose3 := {}
deriving DecidableEq

/-- Model of `class Rig`: the private `_subPoses` vector. -/
structure Rig where
  subPoses : List RigSubPose
deriving DecidableEq

/-- The `Rig(unsigned int nbSubPoses)` constructor:
`_subPoses.resize(nbSubPoses)` fills with default-constructed sub-poses. -/
def Rig.ofNbSubPoses (nbSubPoses : Nat) : Rig :=
  ⟨List.replicate nbSubPoses {}⟩

/-- `Rig::isInitialized`: true when at least one sub-pose has a status
different from `UNINITIALIZED`. -/
def Rig.isInitialized (r : Rig) : Bool :=
  r.subPoses.any fun sp => sp.status != .UNINITIALIZED

/-- `Rig::getNbSubPoses`: size of the sub-pose vector. -/
def Rig.getNbSubPoses (r : Rig) : Nat :=
  r.subPoses.length

/-! ### Meshing application: partitioning enum and command line -/

/-- `enum EPartitioning` of the meshing application. -/
inductive EPartitioning : Type
  | eUndefined
  | eSingleBlock
  | eAuto
deriving DecidableEq, Repr

/-- `EPartitioning_stringToEnum`: any string other than the two known
names silently maps to `eUndefined`. -/
def EPartitioning_stringToEnum (s : String) : EPartitioning :=
  if s = "singleBlock" then .eSingleBlock
  else if s = "auto" then .eAuto
  else .eUndefined

/-- One command-line option token, already split into the option name (as
the user wrote it, without dashes) and its value. -/
structure Tok where
  name : String
  value : String
deriving DecidableEq, Repr

/-- Option names registered in `allParams` (`"o"` is the short alias of
`"output"`).  Note that no `help` option is registered. -/
def knownNames : List String :=
  ["ini", "depthMapFolder", "depthMapFilterFolder", "output", "o",
   "maxPts", "maxPtsPerVoxel", "partitioning"]

/-- Options whose declared value type is `int`, validated during
`po::store`. -/
def intNames : List String := ["maxPts", "maxPtsPerVoxel"]

/-- `po::store(po::parse_command_line(...))` succeeds exactly when every
token names a registered option and every int-typed value parses.  The
`partitioning` extractor never fails: `EPartitioning_stringToEnum` maps
unknown strings to `eUndefined` without setting the stream fail state. -/
def storeOk (toks : List Tok) : Bool :=
  toks.all fun t =>
    knownNames.contains t.name &&
    (!intNames.contains t.name || (t.value.toInt?).isSome)

def hasName (toks : List Tok) (n : String) : Bool :=
  toks.any fun t => t.name == n

def lookupStr (toks : List Tok) (n : String) (d : String) : String :=
  match toks.find? fun t => t.name == n with
  | some t => t.value
  | none => d

def lookupInt (toks : List Tok) (n : String) (d : Int) : Int :=
  match toks.find? fun t => t.name == n with
  | some t => (t.value.toInt?).getD d
  | none => d

/-- The configuration extracted by a successful parse, mirroring the local
variables of `main`. -/
structure Config where
  iniFilepath : String
  depthMapFolder : String
  depthMapFilterFolder : String
  outputMesh : String
  maxPts : Int
  maxPtsPerVoxel : Int
  partitioning : EPartitioning
deriving DecidableEq, Repr

/-- `po::notify` raises `required_option` unless every required option is
present (`output` may be given through its short alias `o`). -/
def requiredPresent (toks : List Tok) : Bool :=
  hasName toks "ini" && hasName toks "depthMapFolder" &&
  hasName toks "depthMapFilterFolder" &&
  (hasName toks "output" || hasName toks "o")

/-- Result of the command-line phase of `main`. -/
inductive CliOutcome : Type
  | usageSuccess
  | usageFailure
  | proceed (cfg : Config)
deriving DecidableEq, Repr

/-- The command-line phase of `main`: `po::store` (unknown option or bad
int value throws, caught by the handlers that print the error and the
usage and return `EXIT_FAILURE`), then the `vm.count("help") || argc == 1`
check returning `EXIT_SUCCESS` after printing usage, then `po::notify`
(missing required option is caught the same way), then the extracted
configuration. -/
def parseCli (toks : List Tok) : CliOutcome :=
  if !storeOk toks then .usageFailure
  else if hasName toks "help" || toks.isEmpty then .usageSuccess
  else if !requiredPresent toks then .usageFailure
  else .proceed
    { iniFilepath := lookupStr toks "ini" ""
      depthMapFolder := lookupStr toks "depthMapFolder" ""
      depthMapFilterFolder := lookupStr toks "depthMapFilterFolder" ""
      outputMesh := lookupStr toks "output" (lookupStr toks "o" "")
      maxPts := lookupInt toks "maxPts" 6000000
      maxPtsPerVoxel := lookupInt toks "maxPtsPerVoxel" 6000000
      partitioning :=
        EPartitioning_stringToEnum (lookupStr toks "partitioning" "singleBlock") }

/-! ### Meshing application: oracle, events and results -/

/-- Oracle for the external collaborators of `main`:
`planCacheExists` is `FileExists(hexahsToReconstruct.bin)`;
`getNTracks dim` is the track count `voxelsGrid::getNTracks()` of the
space cloned at resolution `dim`; `meshPts` and `meshTris` are the vertex
and face counts of the mesh returned by `delaunayGC.createMesh()`;
`gridLevel0` is the ini key `largeScale.gridLevel0` (default 1024). -/
structure World where
  planCacheExists : Bool
  getNTracks : Int → Nat
  meshPts : Nat
  meshTris : Nat
  gridLevel0 : Int := 1024

/-- Effect events emitted by the embedded `main`, in program order. -/
inductive Ev : Type
  | printError
  | printUsage
  | generateSpace
  | loadPlan
  | computePlan
  | savePlan
  | reconstructVoxels
  | joinMeshes
  | saveJoinedMesh
  | exportJoined
  | joinPtsCams
  | loadSpace
  | reconstructVoxelSB
  | graphCutPost
  | createMesh
  | meshPost
  | saveMeshBin
  | savePtsCamsSB
  | exportObjSB
deriving DecidableEq, Repr

/-- Final result of a run: a process exit code, death by an uncaught
exception, or (under the fuel semantics) a run whose search loop has not
finished within the given fuel. -/
inductive ProgResult : Type
  | exited (code : Nat)
  | threw (msg : String)
  | hung
deriving DecidableEq, Repr

/-! ### Single-block resolution-search loop -/

/-- `std::numeric_limits<unsigned long>::max()` on the 64-bit target. -/
def ULONGMAX : Nat := 2 ^ 64 - 1

/-- The value of an `int` converted to `unsigned long`, as in the
comparison `ntracks > maxPts` (usual arithmetic conversions). -/
def uLong (i : Int) : Nat := (i % (2 ^ 64 : Int)).toNat

/-- The comparison `(double)ntracks / (double)maxPts < 2.0`, evaluated
exactly.  For a positive budget it is the exact integer comparison
`ntracks < 2 * maxPts` (the double division of such operands never crosses
2.0 when rounding, for counts below 2^53); for a negative budget the ratio
is nonpositive, hence below 2; for a zero budget it is infinity or NaN,
both of which compare false. -/
def ratioLt2 (ntracks : Nat) (maxPts : Int) : Bool :=
  if 0 < maxPts then decide ((ntracks : Int) < 2 * maxPts)
  else decide (maxPts < 0)

/-- Conversion of a double holding a (half-)integer back to `int`
truncates toward zero, so `ocTreeDim * 0.5` is truncated division by 2. -/
def halfTrunc (dim : Int) : Int := Int.tdiv dim 2

/-- The resolution update performed when `ntracks > maxPts`:
`ocTreeDim = (t < 2.0) ? ocTreeDim - 100 : ocTreeDim * 0.5`. -/
def stepDim (maxPts : Int) (ntracks : Nat) (dim : Int) : Int :=
  if ratioLt2 ntracks maxPts then dim - 100 else halfTrunc dim

/-- The single-block search loop
`while (ntracks > maxPts) { clone; ntracks = getNTracks(); if (ntracks > maxPts) adjust ocTreeDim; }`
with explicit fuel.  Returns the final `(ntracks, ocTreeDim)` when the
loop exits within the fuel, `none` otherwise. -/
def sbLoop (g : Int → Nat) (maxPts : Int) :
    Nat → Int → Nat → Option (Nat × Int)
  | 0, dim, ntracks =>
    if ntracks ≤ uLong maxPts then some (ntracks, dim) else none
  | fuel + 1, dim, ntracks =>
    if ntracks ≤ uLong maxPts then some (ntracks, dim)
    else
      let nt2 := g dim
      let dim2 := if uLong maxPts < nt2 then stepDim maxPts nt2 dim else dim
      sbLoop g maxPts fuel dim2 nt2

/-! ### The partitioning switch -/

/-- The `case eSingleBlock` body: generate the space, run the search loop,
load the accepted space, reconstruct, post-process the cut, create the
mesh (throwing `"Empty mesh"` when its point list is empty), then
post-process and save.  The second component is `none` when the body runs
to completion (and, the case having no `break`, control falls through). -/
def sbBranch (w : World) (cfg : Config) (fuel : Nat) :
    List Ev × Option ProgResult :=
  match sbLoop w.getNTracks cfg.maxPts fuel w.gridLevel0 ULONGMAX with
  | none => ([.generateSpace], some .hung)
  | some _ =>
    if w.meshPts = 0 then
      ([.generateSpace, .loadSpace, .reconstructVoxelSB, .graphCutPost,
        .createMesh], some (.threw "Empty mesh"))
    else
      ([.generateSpace, .loadSpace, .reconstructVoxelSB, .graphCutPost,
        .createMesh, .meshPost, .saveMeshBin, .savePtsCamsSB,
        .exportObjSB], none)

/-- The `case eAuto` body: generate the space, then load the voxels array
from `hexahsToReconstruct.bin` when that file exists, else compute it with
`computeReconstructionPlanBinSearch(maxPts)` and save it; reconstruct each
voxel, join the meshes, save and export, join the point-camera lists.
It runs to completion (`none`): its failures are I/O aborts outside this
model, and the case has no `break`. -/
def autoBranch (w : World) : List Ev × Option ProgResult :=
  ([.generateSpace] ++
     (if w.planCacheExists then [.loadPlan] else [.computePlan, .savePlan]) ++
   [.reconstructVoxels, .joinMeshes, .saveJoinedMesh, .exportJoined,
    .joinPtsCams], none)

/-- The `case eUndefined` body: `throw std::invalid_argument("Partitioning not defined")`. -/
def caseUndefined : List Ev × Option ProgResult :=
  ([], some (.threw "Partitioning not defined"))

/-- Sequencing of two switch-case bodies under fall-through: the second
body runs only when the first ran to completion. -/
def seqCase (a b : List Ev × Option ProgResult) : List Ev × Option ProgResult :=
  match a.2 with
  | some r => (a.1, some r)
  | none => (a.1 ++ b.1, b.2)

/-- The `switch (partitioning)` of `main`.  No case ends with `break`, so
`eAuto` falls through into the `eSingleBlock` body and both fall through
into the `eUndefined` body. -/
def runSwitch (w : World) (cfg : Config) (fuel : Nat) :
    List Ev × Option ProgResult :=
  match cfg.partitioning with
  | .eAuto =>
    seqCase (autoBranch w) (seqCase (sbBranch w cfg fuel) caseUndefined)
  | .eSingleBlock => seqCase (sbBranch w cfg fuel) caseUndefined
  | .eUndefined => caseUndefined

/-- The whole of `main`: the command-line phase, then the switch, then the
final `return EXIT_SUCCESS` reached only if the switch runs to
completion. -/
def runMain (toks : List Tok) (w : World) (fuel : Nat) :
    List Ev × ProgResult :=
  match parseCli toks with
  | .usageSuccess => ([.printUsage], .exited 0)
  | .usageFailure => ([.printError, .printUsage], .exited 1)
  | .proceed cfg =>
    let r := runSwitch w cfg fuel
    (r.1, (r.2).getD (.exited 0))

/-! ### Concrete fixtures -/

/-- A benign oracle: no plan cache, the track count immediately fits any
positive budget, the extracted mesh is non-degenerate. -/
def wGood : World :=
  { planCacheExists := false, getNTracks := fun _ => 5,
    meshPts := 10, meshTris := 12 }

/-- Oracle whose extracted mesh has vertices but no faces. -/
def wNoTris : World :=
  { planCacheExists := false, getNTracks := fun _ => 5,
    meshPts := 1, meshTris := 0 }

/-- Oracle whose extracted mesh is entirely empty. -/
def wEmptyMesh : World :=
  { planCacheExists := false, getNTracks := fun _ => 5,
    meshPts := 0, meshTris := 0 }

/-- A well-formed command line giving the four required options. -/
def toksGood : List Tok :=
  [⟨"ini", "mvs.ini"⟩, ⟨"depthMapFolder", "d"⟩,
   ⟨"depthMapFilterFolder", "f"⟩, ⟨"output", "out/mesh.obj"⟩]

/-- The same command line with an unparseable partitioning value. -/
def toksBadEnum : List Tok := toksGood ++ [⟨"partitioning", "bogus"⟩]

/-- A lone `--help` request. -/
def toksHelp : List Tok := [⟨"help", ""⟩]

/-- The configuration `parseCli toksGood` produces. -/
def cfgSB : Config :=
  { iniFilepath := "mvs.ini", depthMapFolder := "d",
    depthMapFilterFolder := "f", outputMesh := "out/mesh.obj",
    maxPts := 6000000, maxPtsPerVoxel := 6000000,
    partitioning := .eSingleBlock }

/-- The same configuration in auto mode. -/
def cfgAuto : Config := { cfgSB with partitioning := .eAuto }

/-- The same configuration with the undefined partitioning value. -/
def cfgU : Config := { cfgSB with partitioning := .eUndefined }

/-! ### Helper lemmas -/

/-- The single-block case body either hangs in the search loop, throws on
an empty mesh point list, or runs to completion. -/
theorem sbBranch_cases (w : World) (cfg : Config) (fuel : Nat) :
    (sbBranch w cfg fuel).2 = some .hung ∨
    (sbBranch w cfg fuel).2 = some (.threw "Empty mesh") ∨
    (sbBranch w cfg fuel).2 = none := by
  rcases h : sbLoop w.getNTracks cfg.maxPts fuel w.gridLevel0 ULONGMAX with _ | p
  · exact Or.inl (by simp [sbBranch, h])
  · by_cases hm : w.meshPts = 0
    · exact Or.inr (Or.inl (by simp [sbBranch, h, hm]))
    · exact Or.inr (Or.inr (by simp [sbBranch, h, hm]))

/-- The single-block case body emits none of the plan-cache events. -/
theorem sbBranch_no_plan_events (w : World) (cfg : Config) (fuel : Nat) :
    Ev.loadPlan ∉ (sbBranch w cfg fuel).1 ∧
    Ev.computePlan ∉ (sbBranch w cfg fuel).1 ∧
    Ev.savePlan ∉ (sbBranch w cfg fuel).1 := by
  rcases h : sbLoop w.getNTracks cfg.maxPts fuel w.gridLevel0 ULONGMAX with _ | p
  · simp [sbBranch, h]
  · by_cases hm : w.meshPts = 0 <;> simp [sbBranch, h, hm]

/-- Membership in the events of the single-block case sequenced with the
undefined case: the undefined case emits no events. -/
theorem mem_seqCase_caseUndefined (a : List Ev × Option ProgResult) (e : Ev) :
    e ∈ (seqCase a caseUndefined).1 ↔ e ∈ a.1 := by
  rcases h : a.2 with _ | r <;> simp [seqCase, caseUndefined, h]

/-! ### Claim theorems -/

/-- C1: the claim says the two partitioning modes execute exclusive
branches; on the code, a run in auto mode also executes the single-block
branch (its `reconstructVoxelSB` appears in the trace after `joinMeshes`)
and then falls into the `eUndefined` case and dies on
`invalid_argument("Partitioning not defined")`, because no case of the
`switch` ends with `break`. -/
theorem auto_mode_runs_single_block_branch_too :
    (runSwitch wGood cfgAuto 2).2 = some (.threw "Partitioning not defined") ∧
    Ev.joinMeshes ∈ (runSwitch wGood cfgAuto 2).1 ∧
    Ev.reconstructVoxelSB ∈ (runSwitch wGood cfgAuto 2).1 := by
  decide

/-- C2: the single-block resolution-search loop does not terminate for
every camera/track set: when `getNTracks` reports `101` tracks at every
resolution against a budget of `100`, the loop never exits, whatever fuel
it is given (each iteration takes the slow `ocTreeDim - 100` path and the
track count never drops to the budget). -/
theorem sbLoop_constant_overage_never_exits (fuel : Nat) (dim : Int)
    (ntracks : Nat) (h : 100 < ntracks) :
    sbLoop (fun _ => 101) 100 fuel dim ntracks = none := by
  induction fuel generalizing dim ntracks with
  | zero =>
    simp only [sbLoop, ite_eq_right_iff]
    intro hle
    have : uLong 100 = 100 := by decide
    omega
  | succ fuel ih =>
    have hu : uLong 100 = 100 := by decide
    simp only [sbLoop]
    rw [if_neg (by omega)]
    exact ih _ 101 (by omega)

/-- Witness for C2: the loop of the concrete failing run (initial
`ntracks` is `ULONG_MAX`) returns no result at fuel 5. -/
theorem sbLoop_constant_overage_never_exits_witness :
    sbLoop (fun _ => 101) 100 5 1024 ULONGMAX = none :=
  sbLoop_constant_overage_never_exits 5 1024 ULONGMAX (by decide)

/-- C4: an unparseable `partitioning` value is not reported with usage
text at parse time: the parse succeeds with the silent `eUndefined` value,
no usage is printed, and the run later dies inside the switch on an
uncaught `invalid_argument("Partitioning not defined")` (no space
generation precedes it, so the missing-usage report is the divergence). -/
theorem bad_partitioning_value_skips_usage_report :
    parseCli toksBadEnum = .proceed cfgU ∧
    Ev.printUsage ∉ (runMain toksBadEnum wGood 2).1 ∧
    Ev.printError ∉ (runMain toksBadEnum wGood 2).1 ∧
    (runMain toksBadEnum wGood 2).2 = .threw "Partitioning not defined" ∧
    Ev.generateSpace ∉ (runMain toksBadEnum wGood 2).1 := by
  decide

/-- C5: whenever the single-block resolution-search loop exits, the final
track-candidate count is at most the budget (the budget compared as the
`unsigned long` the source comparison converts `maxPts` to). -/
theorem sbLoop_exit_within_budget (g : Int → Nat) (maxPts : Int)
    (fuel : Nat) (dim : Int) (nt0 ntracks : Nat) (dimF : Int)
    (h : sbLoop g maxPts fuel dim nt0 = some (ntracks, dimF)) :
    ntracks ≤ uLong maxPts := by
  induction fuel generalizing dim nt0 with
  | zero =>
    simp only [sbLoop] at h
    by_cases hle : nt0 ≤ uLong maxPts
    · rw [if_pos hle] at h
      cases h
      exact hle
    · rw [if_neg hle] at h
      exact absurd h (by simp)
  | succ fuel ih =>
    simp only [sbLoop] at h
    by_cases hle : nt0 ≤ uLong maxPts
    · rw [if_pos hle] at h
      cases h
      exact hle
    · rw [if_neg hle] at h
      exact ih _ _ h

/-- Witness for C5: a run whose oracle reports 5 tracks exits at once with
5 ≤ 6000000. -/
theorem sbLoop_exit_within_budget_witness :
    sbLoop (fun _ => 5) 6000000 1 1024 ULONGMAX = some (5, 1024) ∧
    (5 : Nat) ≤ uLong 6000000 :=
  ⟨by decide,
   sbLoop_exit_within_budget (fun _ => 5) 6000000 1 1024 ULONGMAX 5 1024
     (by decide)⟩

/-- C8: the claim says a help request or an empty argument list prints
usage and exits with success; on the code the empty argument list does,
but `--help` is an unregistered option, so `po::store` throws
`unknown_option` and the run prints the error plus usage and exits with
`EXIT_FAILURE` (the `vm.count("help")` check is dead). -/
theorem help_request_fails_but_no_args_succeeds :
    runMain ([] : List Tok) wGood 0 = ([.printUsage], .exited 0) ∧
    runMain toksHelp wGood 0 = ([.printError, .printUsage], .exited 1) := by
  decide

/-- C3 counterexample: a run whose extracted mesh has vertices but zero
faces does not raise the `"Empty mesh"` error (the source checks
`mesh->pts->empty()`, not the face list), so the claimed "if and only if
the mesh has zero faces" is false at this input. -/
theorem zero_faces_mesh_raises_no_empty_mesh_error :
    wNoTris.meshTris = 0 ∧
    (runSwitch wNoTris cfgSB 2).2 ≠ some (.threw "Empty mesh") ∧
    (runSwitch wNoTris cfgSB 2).2 = some (.threw "Partitioning not defined") := by
  decide

/-- C3 amended: in single-block mode, once the search loop has exited, the
run raises the fatal `"Empty mesh"` error if and only if the extracted
mesh has zero points. -/
theorem empty_mesh_error_iff_no_points (w : World) (cfg : Config)
    (fuel : Nat) (hsb : cfg.partitioning = .eSingleBlock)
    (hloop :
      (sbLoop w.getNTracks cfg.maxPts fuel w.gridLevel0 ULONGMAX).isSome = true) :
    ((runSwitch w cfg fuel).2 = some (.threw "Empty mesh") ↔ w.meshPts = 0) := by
  rcases hl : sbLoop w.getNTracks cfg.maxPts fuel w.gridLevel0 ULONGMAX with _ | p
  · rw [hl] at hloop
    simp at hloop
  · by_cases hm : w.meshPts = 0
    · simp [runSwitch, hsb, seqCase, sbBranch, hl, hm]
    · simp [runSwitch, hsb, seqCase, sbBranch, hl, hm, caseUndefined]

/-- Witness for the amended C3: with an entirely empty extracted mesh the
run does raise `"Empty mesh"`. -/
theorem empty_mesh_error_iff_no_points_witness :
    ((runSwitch wEmptyMesh cfgSB 2).2 = some (.threw "Empty mesh") ↔
      wEmptyMesh.meshPts = 0) :=
  empty_mesh_error_iff_no_points wEmptyMesh cfgSB 2 (by decide) (by decide)

/-- C6: in an overage iteration of the search loop, the next resolution is
`ocTreeDim - 100` exactly when the overage ratio `ntracks / maxPts` is
below 2, and the truncated half of `ocTreeDim` otherwise. -/
theorem stepDim_overage_policy (ntracks : Nat) (maxPts dim : Int)
    (_hov : uLong maxPts < ntracks) (hpos : 0 < maxPts) :
    stepDim maxPts ntracks dim =
      if (ntracks : ℚ) / (maxPts : ℚ) < 2 then dim - 100 else halfTrunc dim := by
  have hq : (0 : ℚ) < (maxPts : ℚ) := by exact_mod_cast hpos
  have key : ((ntracks : ℚ) / (maxPts : ℚ) < 2) ↔
      ((ntracks : Int) < 2 * maxPts) := by
    rw [div_lt_iff₀ hq]
    constructor
    · intro h
      exact_mod_cast h
    · intro h
      exact_mod_cast h
  by_cases hc : (ntracks : Int) < 2 * maxPts
  · have h2 : (ntracks : ℚ) / (maxPts : ℚ) < 2 := key.mpr hc
    simp [stepDim, ratioLt2, hpos, hc, h2]
  · have h2 : ¬((ntracks : ℚ) / (maxPts : ℚ) < 2) := fun hx => hc (key.mp hx)
    simp [stepDim, ratioLt2, hpos, hc, h2]

/-- Witness for C6: 7000000 tracks against a budget of 6000000 is an
overage with ratio below 2, so the step subtracts 100. -/
theorem stepDim_overage_policy_witness :
    stepDim 6000000 7000000 1024 =
      if (7000000 : ℚ) / (6000000 : ℚ) < 2 then 1024 - 100
      else halfTrunc 1024 :=
  stepDim_overage_policy 7000000 6000000 1024 (by decide) (by decide)

/-- C7: in auto mode the reconstruction plan is loaded exactly when the
cache file exists; otherwise it is computed and saved; and either way the
run goes on to reconstruct (a missing cache file is never an error). -/
theorem auto_plan_cache_policy (w : World) (cfg : Config) (fuel : Nat)
    (ha : cfg.partitioning = .eAuto) :
    ((Ev.loadPlan ∈ (runSwitch w cfg fuel).1) ↔ w.planCacheExists = true) ∧
    (w.planCacheExists = false →
      Ev.computePlan ∈ (runSwitch w cfg fuel).1 ∧
      Ev.savePlan ∈ (runSwitch w cfg fuel).1) ∧
    (w.planCacheExists = true → Ev.computePlan ∉ (runSwitch w cfg fuel).1) ∧
    Ev.reconstructVoxels ∈ (runSwitch w cfg fuel).1 := by
  obtain ⟨hL, hC, hS⟩ := sbBranch_no_plan_events w cfg fuel
  have hrun : (runSwitch w cfg fuel).1 =
      (autoBranch w).1 ++ (seqCase (sbBranch w cfg fuel) caseUndefined).1 := by
    simp [runSwitch, ha, seqCase, autoBranch]
  have hmem : ∀ e : Ev, e ∈ (runSwitch w cfg fuel).1 ↔
      (e ∈ (autoBranch w).1 ∨ e ∈ (sbBranch w cfg fuel).1) := by
    intro e
    rw [hrun, List.mem_append, mem_seqCase_caseUndefined]
  refine ⟨?_, ?_, ?_, ?_⟩
  · rw [hmem]
    cases hw : w.planCacheExists <;> simp [autoBranch, hw, hL]
  · intro hw
    constructor <;>
      · rw [hmem]
        simp [autoBranch, hw]
  · intro hw
    rw [hmem]
    simp [autoBranch, hw, hC]
  · rw [hmem]
    cases hw : w.planCacheExists <;> simp [autoBranch, hw]

/-- Witness for C7: in the concrete auto run without a cache file the plan
is not loaded from file. -/
theorem auto_plan_cache_policy_witness :
    (Ev.loadPlan ∈ (runSwitch wGood cfgAuto 2).1) ↔
      wGood.planCacheExists = true :=
  (auto_plan_cache_policy wGood cfgAuto 2 (by decide)).1

/-- C9: every execution of the partitioning switch falls through to the
`eUndefined` case and raises `invalid_argument("Partitioning not
defined")` after finishing the selected branch (the only other outcomes
being the branch dying earlier on `"Empty mesh"` or the search loop not
finishing), so `main` never reaches its final `return EXIT_SUCCESS` once
the switch is entered. -/
theorem switch_never_returns_success (w : World) (cfg : Config) (fuel : Nat) :
    ((runSwitch w cfg fuel).2 = some (.threw "Partitioning not defined") ∨
     (runSwitch w cfg fuel).2 = some (.threw "Empty mesh") ∨
     (runSwitch w cfg fuel).2 = some .hung) ∧
    ∀ toks, parseCli toks = .proceed cfg →
      (runMain toks w fuel).2 ≠ .exited 0 := by
  have hdisj : (runSwitch w cfg fuel).2 = some (.threw "Partitioning not defined") ∨
      (runSwitch w cfg fuel).2 = some (.threw "Empty mesh") ∨
      (runSwitch w cfg fuel).2 = some .hung := by
    cases hp : cfg.partitioning with
    | eUndefined =>
      left
      simp [runSwitch, hp, caseUndefined]
    | eSingleBlock =>
      rcases sbBranch_cases w cfg fuel with h | h | h
      · right; right
        simp [runSwitch, hp, seqCase, h]
      · right; left
        simp [runSwitch, hp, seqCase, h]
      · left
        simp [runSwitch, hp, seqCase, h, caseUndefined]
    | eAuto =>
      rcases sbBranch_cases w cfg fuel with h | h | h
      · right; right
        simp [runSwitch, hp, seqCase, autoBranch, h]
      · right; left
        simp [runSwitch, hp, seqCase, autoBranch, h]
      · left
        simp [runSwitch, hp, seqCase, autoBranch, h, caseUndefined]
  refine ⟨hdisj, ?_⟩
  intro toks hpt
  simp only [runMain, hpt]
  rcases hdisj with h | h | h <;> simp [h]

/-- Witness for C9: the concrete well-formed single-block run does not
exit with success. -/
theorem switch_never_returns_success_witness :
    (runMain toksGood wGood 2).2 ≠ .exited 0 :=
  (switch_never_returns_success wGood cfgSB 2).2 toksGood (by decide)

/-- C10: `Rig::isInitialized` is true exactly when some sub-pose has a
status other than `UNINITIALIZED`, and a freshly constructed `Rig(n)` has
`n` sub-poses, each equal to the default sub-pose, and is not
initialized. -/
theorem rig_isInitialized_iff_some_subpose_set (r : Rig) :
    (r.isInitialized = true ↔
      ∃ sp ∈ r.subPoses, sp.status ≠ ERigSubPoseStatus.UNINITIALIZED) ∧
    ∀ n : Nat,
      (Rig.ofNbSubPoses n).getNbSubPoses = n ∧
      (∀ sp ∈ (Rig.ofNbSubPoses n).subPoses, sp = ({} : RigSubPose)) ∧
      (Rig.ofNbSubPoses n).isInitialized = false := by
  constructor
  · simp [Rig.isInitialized, List.any_eq_true, bne_iff_ne]
  · intro n
    refine ⟨by simp [Rig.ofNbSubPoses, Rig.getNbSubPoses], ?_, ?_⟩
    · intro sp hsp
      exact List.eq_of_mem_replicate hsp
    · simp [Rig.isInitialized, Rig.ofNbSubPoses, List.any_eq_true,
        List.mem_replicate]

/-- Witness for C10: a fresh three-camera rig has three sub-poses and is
not initialized. -/
theorem rig_isInitialized_iff_some_subpose_set_witness :
    (Rig.ofNbSubPoses 3).getNbSubPoses = 3 ∧
    (Rig.ofNbSubPoses 3).isInitialized = false :=
  ⟨((rig_isInitialized_iff_some_subpose_set (Rig.ofNbSubPoses 3)).2 3).1,
   ((rig_isInitialized_iff_some_subpose_set (Rig.ofNbSubPoses 3)).2 3).2.2⟩

end AliceVision
